import Mathlib

/-!
Verification development for the `commandify` generator of
`bevy_derive_commands` (src/gen.rs).

The generator is shallowly embedded as pure Lean functions over token lists
(`List String`): every `quote!` template of src/gen.rs becomes an explicit
token-list expression, interpolation becomes list concatenation, and a brace
group contributes its opening and closing brace tokens.  The collaborators
that are not part of src/ (the `parse` module: `parse::macro_args`,
`parse::fn_args`, `parse::return_type`, `parse::docs`, and the `inflector`
crate's PascalCase conversion) are modelled from the specification and are
marked as such in their doc comments.
-/

/-- A token of the emitted stream.  Identifiers, keywords and punctuation are
all rendered as plain strings; a brace group contributes explicit brace
tokens. -/
abbrev Tok := String

/-- Splice a rendering function over a list, concatenating the results.  This
is the embedding of a `quote!` repetition `#(...)*`. -/
def spliceAll (f : α → List Tok) (xs : List α) : List Tok :=
  xs.foldr (fun x acc => f x ++ acc) []

/-- One generic parameter of the input function (gen.rs lines 76-93 reduce
each kind to its bare reference name, so the model stores just that name). -/
inductive GenericParam
| lifetime (s : String)
| typ (s : String)
| cst (s : String)
deriving DecidableEq

/-- The bare reference name of a generic parameter (gen.rs lines 78-91). -/
def GenericParam.refName : GenericParam → String
| .lifetime s => s
| .typ s => s
| .cst s => s

/-- The `generic_names` vector of gen.rs lines 76-93. -/
def generic_names (gs : List GenericParam) : List String :=
  gs.map GenericParam.refName

/-- The bracketed generic-argument fragment of gen.rs lines 116-120. -/
def generic_names_frag (gs : List GenericParam) : List Tok :=
  if (generic_names gs).isEmpty then []
  else "<" :: (spliceAll (fun n => [n, ","]) (generic_names gs) ++ [">"])

/-- Rendering of `#generics`.  The model reduces each generic parameter to
its reference name, so the declaration-site rendering coincides with the
argument-site rendering. -/
def genericsFrag (gs : List GenericParam) : List Tok :=
  generic_names_frag gs

/-- One parameter of the input function.  The constructors encode the field
classifier's three classes: the subject (`Entity`) parameter, the `&mut
World` parameter marking exclusive mode, and a plain captured parameter. -/
inductive Param
| entityArg (name : String)
| worldArg (name : String)
| plain (name : String) (ty : String)
deriving DecidableEq

/-- Token rendering of one parameter, used for `(#inputs)`. -/
def paramToks : Param → List Tok
| .entityArg n => [n, ":", "Entity"]
| .worldArg n => [n, ":", "&", "mut", "World"]
| .plain n t => [n, ":", t]

/-- The return type of the input function: absent, a two-armed
success/error result wrapper, or some other type. -/
inductive RetTy
| unit
| result (okTy errTy : String)
| other (ty : String)
deriving DecidableEq

/-- Token rendering of `#output` (the `-> T` annotation, empty if absent). -/
def outputFrag : RetTy → List Tok
| .unit => []
| .result a b => ["->", "Result", "<", a, ",", b, ">"]
| .other t => ["->", t]

/-- Modelled from the spec: `parse::return_type` is not under src/.  Spec
section 6 exposes a single boolean distinguishing a two-armed result return
type from an absent/other one (`isFallible`/`do_return`). -/
def return_type : RetTy → Bool
| .result _ _ => true
| _ => false

/-- The destructured `ItemFn`/`Signature` of gen.rs lines 15-33. -/
structure ItemFn where
  attrs : List Tok
  vis : List Tok
  constness : Bool
  asyncness : Bool
  unsafety : Bool
  abi : Option String
  ident : String
  generics : List GenericParam
  inputs : List Param
  variadic : Bool
  output : RetTy
  body : List Tok
deriving DecidableEq

/-- The raw configuration directive list, before defaulting. -/
structure MacroArgsInput where
  no_trait : Bool
  no_world : Bool
  name : Option String
  struct_name : Option String
  trait_name : Option String
  ecs_root : Option (List Tok)
  ok_handler : Option String
  error_handler : Option String
deriving DecidableEq

/-- The validated options record returned by `parse::macro_args`. -/
structure MacroArgs where
  no_trait : Bool
  no_world : Bool
  name : String
  struct_name : Option String
  trait_name : Option String
  ecs_root : Option (List Tok)
  ok_handler : Option String
  error_handler : Option String
deriving DecidableEq

/-- Modelled from the spec: `parse::macro_args` is not under src/.  Spec
section 3: `publicName` defaults to the function's name, an override present
in the raw directive list always wins; the other overrides stay optional and
are defaulted later by gen.rs itself (lines 55-73). -/
def macro_args (raw : MacroArgsInput) (ident : String) : MacroArgs :=
  { no_trait := raw.no_trait
    no_world := raw.no_world
    name := raw.name.getD ident
    struct_name := raw.struct_name
    trait_name := raw.trait_name
    ecs_root := raw.ecs_root
    ok_handler := raw.ok_handler
    error_handler := raw.error_handler }

/-- The three fatal validation errors of the generator (spec section 4.5). -/
inductive GenError
| variadic
| entityRequired
| ambiguousEntity
deriving DecidableEq

/-- The reported message of each validation error.  The first two are the
literal messages of gen.rs lines 37 and 109-110; the third is modelled from
spec section 4.1 ("ambiguous subject parameter", raised by `parse::fn_args`
which is not under src/). -/
def GenError.message : GenError → String
| .variadic => "command cannot be variadic"
| .entityRequired => "Entity commands must take in a `Entity` parameter"
| .ambiguousEntity => "ambiguous subject parameter"

/-- The execution-style split of the classified arguments
(`parse::SystemArgs`): exclusive (direct world access, carrying the world
parameter) or system (carrying the system-input names and the optional
subject binding name). -/
inductive SystemArgs
| Exclusive (world : String)
| System (systems_in : List String) (entity_name : Option String)
deriving DecidableEq

/-- The classified-fields record returned by `parse::fn_args`
(`parse::SysArgs`). -/
structure SysArgs where
  entity : Option String
  fields : List (String × String)
  def_field_names : List String
  impl_field_names : List String
  args : SystemArgs
deriving DecidableEq

/-- The subject-shaped (`Entity`) parameters of the input, in declaration
order. -/
def entity_params (inputs : List Param) : List String :=
  inputs.filterMap fun p => match p with
    | .entityArg n => some n
    | _ => none

/-- The `&mut World` parameters of the input, in declaration order. -/
def world_params (inputs : List Param) : List String :=
  inputs.filterMap fun p => match p with
    | .worldArg n => some n
    | _ => none

/-- The captured fields of the input (all plain parameters), in declaration
order. -/
def captured_fields (inputs : List Param) : List (String × String) :=
  inputs.filterMap fun p => match p with
    | .plain n t => some (n, t)
    | _ => none

/-- Modelled from the spec: `parse::fn_args` (the field classifier, spec
section 4.1) is not under src/.  It scans the parameters for subject-shaped
(`Entity`) parameters — more than one is the "ambiguous subject parameter"
validation error — separates the `&mut World` parameter (whose presence
selects exclusive mode) and keeps every remaining parameter as a captured
field, preserving declaration order. -/
def fn_args (inputs : List Param) (entity_command : Bool) :
    Except GenError SysArgs :=
  let entities := entity_params inputs
  let fields := captured_fields inputs
  if 1 < entities.length then .error .ambiguousEntity
  else
    let names := fields.map Prod.fst
    let args := match (world_params inputs).head? with
      | some w => SystemArgs.Exclusive w
      | none =>
        SystemArgs.System
          ((if entity_command then entities.take 1 else []) ++ names)
          entities.head?
    .ok { entity := entities.head?
          fields := fields
          def_field_names := names
          impl_field_names := names
          args := args }

/-- Modelled from the spec: `parse::docs` is not under src/.  It extracts the
ordered doc-comment fragments from the attribute list. -/
def parse_docs (attrs : List Tok) : List Tok :=
  attrs.filter fun a => a.startsWith ("doc")

/-- A word capitalised: first character upper-cased, the rest lower-cased. -/
def capWord : List Char → List Char
| [] => []
| c :: cs => c.toUpper :: cs.map Char.toLower

/-- Word-separator characters for case conversion. -/
def isSep (c : Char) : Bool :=
  c = '_' || c = '-' || c = ' '

/-- Split an identifier into words at separators and lower-to-upper
boundaries (the accumulator holds the current word reversed). -/
def pascalSplit : List Char → Option Char → List Char → List (List Char)
| [], _, acc => if acc.isEmpty then [] else [acc.reverse]
| c :: rest, prev, acc =>
  if isSep c then
    if acc.isEmpty then pascalSplit rest none []
    else acc.reverse :: pascalSplit rest none []
  else if c.isUpper &&
      (match prev with | some p => p.isLower || p.isDigit | none => false) then
    acc.reverse :: pascalSplit rest (some c) [c]
  else pascalSplit rest (some c) (c :: acc)

/-- Modelled from the spec: the `inflector` crate's `to_pascal_case` is an
external dependency; spec section 3 describes the derived default names as
`PascalCase(publicName) + ...`.  Words are split at separators and
lower-to-upper boundaries and each word is capitalised. -/
def to_pascal_case (s : String) : String :=
  String.join ((pascalSplit s.data none []).map (fun w => String.mk (capWord w)))

/-- The defaulted generated-type name of gen.rs lines 61-66: the override,
verbatim, if present; otherwise `PascalCase(name)` followed by `Command` or
`EntityCommand`. -/
def resolve_struct_name (ov : Option String) (name : String)
    (entity_command : Bool) : String :=
  ov.getD (to_pascal_case name ++
    (if entity_command then "EntityCommand" else "Command"))

/-- The defaulted generated-trait name of gen.rs lines 67-72: the override,
verbatim, if present; otherwise `Command(s|EntityCommands)` built from
`PascalCase(name)` with the `Ext` suffix. -/
def resolve_trait_name (ov : Option String) (name : String)
    (entity_command : Bool) : String :=
  ov.getD ((if entity_command then "EntityCommand" else "Command") ++ "s" ++
    to_pascal_case name ++ "Ext")

/-- The qualifier tokens of the input function, in signature order:
constness, asyncness, unsafety, ABI (gen.rs lines 140-143 and 434-437). -/
def qual_frag (item : ItemFn) : List Tok :=
  (if item.constness then ["const"] else []) ++
  (if item.asyncness then ["async"] else []) ++
  (if item.unsafety then ["unsafe"] else []) ++
  (match item.abi with | some a => ["extern", a] | none => [])

/-- The leading signature fragment of gen.rs lines 136-145 (called
fn_signature_prefix there): allow attribute, forwarded attributes,
visibility, qualifiers and the `fn` keyword. -/
def fn_signature_head (item : ItemFn) : List Tok :=
  "#[allow(unused)]" :: (item.attrs ++ item.vis ++ qual_frag item ++ ["fn"])

/-- The `fn_signature_suffix` fragment of gen.rs lines 147-151 (the variadic
dots never render: a variadic input was already rejected). -/
def fn_signature_suffix (item : ItemFn) : List Tok :=
  genericsFrag item.generics ++
    ("(" :: (spliceAll (fun p => paramToks p ++ [","]) item.inputs ++ [")"]))

/-- The `system_in_frag` fragment of gen.rs lines 122-134: a parenthesised
tuple when more than one system input, the single input alone when exactly
one, nothing when none or in exclusive mode. -/
def system_in_frag : SystemArgs → List Tok
| .Exclusive _ => []
| .System systems_in _ =>
  if 1 < systems_in.length then
    "(" :: (spliceAll (fun f => [f, ","]) systems_in ++ [")"])
  else match systems_in.getLast? with
    | some f => [f]
    | none => []

/-- The `result_handling_fn_body` block of gen.rs lines 164-197: call the
renamed internal function once, bind the result, and match its two arms,
running the corresponding handler (if configured) on each. -/
def result_handling_fn_body (ecs_root : List Tok) (fn_ident : String)
    (def_field_names : List String)
    (ok_handler error_handler : Option String) : List Tok :=
  let fn_call :=
    if def_field_names.isEmpty then [fn_ident, "(", "world", ")"]
    else fn_ident :: "(" :: "world" :: "," ::
      (spliceAll (fun n => [n, ","]) def_field_names ++ [")"])
  let ok_frag := match ok_handler with
    | some h => ["world", ".", "run_system_once_with", "(", "ok", ",", h, ")"]
    | none => []
  let err_frag := match error_handler with
    | some h => ["world", ".", "run_system_once_with", "(", "error", ",", h, ")"]
    | none => []
  "\x7b" :: "use" :: (ecs_root ++
    ["::", "system", "::", "RunSystemOnce", ";", "let", "result", "="] ++
    fn_call ++
    [";", "match", "result", "\x7b", "Ok", "(", "ok", ")", "=>", "\x7b"] ++
    ok_frag ++
    ["\x7d", ",", "Err", "(", "error", ")", "=>", "\x7b"] ++
    err_frag ++
    ["\x7d", ",", "\x7d", "\x7d"])

/-- The `struct_fields_frag` fragment of gen.rs lines 244-248: a bare
semicolon (unit-style declaration) when there are no captured fields,
otherwise the braced public field list in declaration order. -/
def struct_fields_frag (fields : List (String × String)) : List Tok :=
  if fields.isEmpty then [";"]
  else "\x7b" :: (spliceAll (fun f => ["pub", f.1, ":", f.2, ","]) fields ++ ["\x7d"])

/-- Token rendering of the optional subject parameter (`#entity`). -/
def entityParamToks : Option String → List Tok
| some n => [n, ":", "Entity"]
| none => []

/-- Token rendering of one struct field declaration (`#fields` element). -/
def fieldDefToks (f : String × String) : List Tok :=
  [f.1, ":", f.2]

/-- The `impl_command_frag` fragment of gen.rs lines 251-295: the `Command`
or `EntityCommand` implementation.  In exclusive mode the apply body always
destructures the struct and inlines the function body; in system mode it
runs the function as a scheduled unit, destructuring only when fields are
present. -/
def impl_command_frag (entity_command : Bool) (sys : SysArgs)
    (ecs_root : List Tok) (generics : List GenericParam)
    (struct_name : String) (command_trait : String)
    (fn_body : List Tok) (ident : String) : List Tok :=
  match sys.args with
  | .Exclusive world =>
    let apply_params :=
      if entity_command then
        "(" :: "self" :: "," :: (entityParamToks sys.entity ++
          ["," , world, ":", "&", "mut", "World", ")"])
      else ["(", "self", ",", world, ":", "&", "mut", "World", ")"]
    "impl" :: (genericsFrag generics ++ ecs_root ++
      ["::", "system", "::", command_trait, "for", struct_name] ++
      generic_names_frag generics ++
      ["\x7b", "fn", "apply"] ++ apply_params ++
      ["\x7b", "let", struct_name, "\x7b"] ++
      spliceAll (fun n => [n, ","]) sys.impl_field_names ++
      ["\x7d", "=", "self", ";"] ++ fn_body ++ ["\x7d", "\x7d"])
  | .System _ _ =>
    let apply_params :=
      if entity_command then
        "(" :: "self" :: "," :: (entityParamToks sys.entity ++
          ["," , "world", ":", "&", "mut"] ++ ecs_root ++
          ["::", "world", "::", "World", ")"])
      else "(" :: "self" :: "," :: "world" :: ":" :: "&" :: "mut" ::
        (ecs_root ++ ["::", "world", "::", "World", ")"])
    if sys.fields.isEmpty then
      "impl" :: (genericsFrag generics ++ ecs_root ++
        ["::", "system", "::", command_trait, "for", struct_name] ++
        generic_names_frag generics ++
        ["\x7b", "fn", "apply"] ++ apply_params ++
        ["\x7b", "use"] ++ ecs_root ++
        ["::", "system", "::", "RunSystemOnce", ";",
         "world", ".", "run_system_once", "(", ident, ")", ";", "\x7d", "\x7d"])
    else
      "impl" :: (genericsFrag generics ++ ecs_root ++
        ["::", "system", "::", command_trait, "for", struct_name] ++
        generic_names_frag generics ++
        ["\x7b", "fn", "apply"] ++ apply_params ++
        ["\x7b", "use"] ++ ecs_root ++
        ["::", "system", "::", "RunSystemOnce", ";",
         "let", struct_name, "\x7b"] ++
        spliceAll (fun n => [n, ","]) sys.def_field_names ++
        ["\x7d", "=", "self", ";",
         "world", ".", "run_system_once_with", "("] ++
        system_in_frag sys.args ++
        [",", ident, ")", ";", "\x7d", "\x7d"])

/-- The `commands_trait_frag` fragment of gen.rs lines 299-349: the public
extension trait and its implementation for the queued-commands handle
(`Commands` or `EntityCommands`), suppressed entirely by `no_trait`.  The
two execution styles differ only in the punctuation of the parameter list,
exactly as in the source. -/
def commands_trait_frag (entity_command : Bool) (sys : SysArgs)
    (no_trait : Bool) (docs : List Tok) (trait_name name : String)
    (generics : List GenericParam) (trait_fn_output : List Tok)
    (ecs_root : List Tok) (struct_name : String)
    (return_frag : List Tok) : List Tok :=
  match sys.args with
  | .Exclusive _ =>
    if no_trait then []
    else
      let commands_struct :=
        if entity_command then ["EntityCommands", "<", "_", ">"]
        else ["Commands", "<", "_", ",", "_", ">"]
      "pub" :: "trait" :: trait_name :: "\x7b" :: (docs ++
        ["fn", name] ++ genericsFrag generics ++
        ["(", "&", "mut", "self", ","] ++
        spliceAll (fun f => fieldDefToks f ++ [","]) sys.fields ++ [")"] ++
        trait_fn_output ++ [";", "\x7d",
        "impl", trait_name, "for"] ++ ecs_root ++
        ["::", "system", "::"] ++ commands_struct ++
        ["\x7b", "fn", name] ++ genericsFrag generics ++
        ["(", "&", "mut", "self", ","] ++
        spliceAll (fun f => fieldDefToks f ++ [","]) sys.fields ++ [")"] ++
        trait_fn_output ++
        ["\x7b", "self", ".", "add", "(", struct_name, "\x7b"] ++
        spliceAll (fun n => [n, ","]) sys.def_field_names ++
        ["\x7d", ")", ";"] ++ return_frag ++ ["\x7d", "\x7d"])
  | .System _ _ =>
    if no_trait then []
    else
      let commands_struct :=
        if entity_command then ["EntityCommands", "<", "_", ">"]
        else ["Commands", "<", "_", ",", "_", ">"]
      "pub" :: "trait" :: trait_name :: "\x7b" :: (docs ++
        ["fn", name] ++ genericsFrag generics ++
        ["(", "&", "mut", "self"] ++
        spliceAll (fun f => "," :: (fieldDefToks f ++ [","])) sys.fields ++ [")"] ++
        trait_fn_output ++ [";", "\x7d",
        "impl", trait_name, "for"] ++ ecs_root ++
        ["::", "system", "::"] ++ commands_struct ++
        ["\x7b", "fn", name] ++ genericsFrag generics ++
        ["(", "&", "mut", "self"] ++
        spliceAll (fun f => "," :: (fieldDefToks f ++ [","])) sys.fields ++ [")"] ++
        trait_fn_output ++
        ["\x7b", "self", ".", "add", "(", struct_name, "\x7b"] ++
        spliceAll (fun n => [n, ","]) sys.def_field_names ++
        ["\x7d", ")", ";"] ++ return_frag ++ ["\x7d", "\x7d"])

/-- The `impl_world_frag` fragment of gen.rs lines 352-427: the same trait
implemented for the direct target (`World` or `EntityWorldMut`), suppressed
by `no_trait` or `no_world`.  Note that in system mode the emitted `use`
statement hard-codes the `::bevy::ecs` path (gen.rs lines 408 and 418)
instead of interpolating the resolved root. -/
def impl_world_frag (entity_command : Bool) (sys : SysArgs)
    (no_trait no_world : Bool) (trait_name name : String)
    (generics : List GenericParam) (trait_fn_output : List Tok)
    (ecs_root : List Tok) (struct_name : String) (command_trait : String)
    (return_frag : List Tok) (ident : String) : List Tok :=
  match sys.args with
  | .Exclusive _ =>
    if no_trait || no_world then []
    else if entity_command then
      "impl" :: trait_name :: "for" :: (ecs_root ++
        ["::", "world", "::", "EntityWorldMut", "<", "_", ">",
         "\x7b", "fn", name] ++ genericsFrag generics ++
        ["(", "&", "mut", "self", ","] ++
        spliceAll (fun f => fieldDefToks f ++ [","]) sys.fields ++ [")"] ++
        trait_fn_output ++
        ["\x7b", "let", "id", "=", "self", ".", "id", "(", ")", ";",
         "self", ".", "world_scope", "(", "|", "world", "|", "\x7b",
         "<", struct_name] ++ generic_names_frag generics ++ ["as"] ++
        ecs_root ++
        ["::", "system", "::", command_trait, ">", "::", "apply",
         "(", struct_name, "\x7b"] ++
        spliceAll (fun n => [n, ","]) sys.def_field_names ++
        ["\x7d", ",", "id", ",", "world", ")", ";", "\x7d", ")", ";"] ++
        return_frag ++ ["\x7d", "\x7d"])
    else
      "impl" :: trait_name :: "for" :: (ecs_root ++
        ["::", "world", "::", "World",
         "\x7b", "fn", name] ++ genericsFrag generics ++
        ["(", "&", "mut", "self", ","] ++
        spliceAll (fun f => fieldDefToks f ++ [","]) sys.fields ++ [")"] ++
        trait_fn_output ++
        ["\x7b", "<", struct_name] ++ generic_names_frag generics ++ ["as"] ++
        ecs_root ++
        ["::", "system", "::", command_trait, ">", "::", "apply",
         "(", struct_name, "\x7b"] ++
        spliceAll (fun n => [n, ","]) sys.def_field_names ++
        ["\x7d", ",", "self", ")", ";"] ++
        return_frag ++ ["\x7d", "\x7d"])
  | .System _ entity_name =>
    let root :=
      if entity_command then
        ecs_root ++ ["::", "world", "::", "EntityWorldMut", "<", "_", ">"]
      else ecs_root ++ ["::", "world", "::", "World"]
    let entity_frag := match entity_name with
      | some e => ["let", e, "=", "self", ".", "id", "(", ")", ";"]
      | none => []
    let run_frag :=
      if entity_command then
        "self" :: "." :: "world_scope" :: "(" :: "|" :: "world" :: "|" ::
          "\x7b" :: "world" :: "." :: "run_system_once_with" :: "(" ::
          (system_in_frag sys.args ++ [",", ident, ")", ";", "\x7d", ")", ";"])
      else
        "self" :: "." :: "run_system_once_with" :: "(" ::
          (system_in_frag sys.args ++ [",", ident, ")", ";"])
    if no_trait || no_world then []
    else if sys.fields.isEmpty then
      "impl" :: trait_name :: "for" :: (root ++
        ["\x7b", "fn", name] ++ genericsFrag generics ++
        ["(", "&", "mut", "self", ")"] ++ trait_fn_output ++
        ["\x7b", "use", "::", "bevy", "::", "ecs", "::", "system", "::",
         "RunSystemOnce", ";",
         "self", ".", "run_system_once", "(", ident, ")", ";"] ++
        return_frag ++ ["\x7d", "\x7d"])
    else
      "impl" :: trait_name :: "for" :: (root ++
        ["\x7b", "fn", name] ++ genericsFrag generics ++
        ["(", "&", "mut", "self"] ++
        spliceAll (fun f => "," :: fieldDefToks f) sys.fields ++ [")"] ++
        trait_fn_output ++
        ["\x7b", "use", "::", "bevy", "::", "ecs", "::", "system", "::",
         "RunSystemOnce", ";"] ++
        entity_frag ++ run_frag ++ return_frag ++ ["\x7d", "\x7d"])

/-- The artifact set assembled by gen.rs lines 429-445, split into the same
named fragments the source computes before concatenating them. -/
structure Artifacts where
  original_fn : List Tok
  result_handling_fn : Option (List Tok)
  struct_decl : List Tok
  impl_command : List Tok
  commands_trait : List Tok
  impl_world : List Tok
deriving DecidableEq

/-- The pure assembly step of gen.rs lines 114-445, given the resolved
options and classified fields.  Every `let` mirrors the local of the same
name in the source. -/
def buildArtifacts (margs : MacroArgs) (item : ItemFn)
    (entity_command : Bool) (sys : SysArgs) : Artifacts :=
  let do_return := return_type item.output
  let struct_name := resolve_struct_name margs.struct_name margs.name entity_command
  let trait_name := resolve_trait_name margs.trait_name margs.name entity_command
  let ecs_root := margs.ecs_root.getD ["::", "bevy", "::", "ecs"]
  let docs := parse_docs item.attrs
  let result_handler_present := margs.error_handler.isSome || margs.ok_handler.isSome
  let fn_ident := if result_handler_present then item.ident ++ "_with_result" else item.ident
  let original_fn_body := "\x7b" :: (item.body ++ ["\x7d"])
  let result_handling_body :=
    if result_handler_present then
      some (result_handling_fn_body ecs_root fn_ident sys.def_field_names
        margs.ok_handler margs.error_handler)
    else none
  let fn_signature_output := if result_handler_present then outputFrag item.output else []
  let trait_fn_output := if !result_handler_present && do_return then outputFrag item.output else []
  let original_fn := fn_signature_head item ++ fn_ident ::
    (fn_signature_suffix item ++ fn_signature_output ++ original_fn_body)
  let result_handling_fn := result_handling_body.map (fun blk =>
    fn_signature_head item ++ item.ident :: (fn_signature_suffix item ++ blk))
  let fn_body := result_handling_body.getD original_fn_body
  let command_trait := if entity_command then "EntityCommand" else "Command"
  let return_frag := if do_return then ["self"] else []
  { original_fn := original_fn
    result_handling_fn := result_handling_fn
    struct_decl := item.attrs ++ item.vis ++ qual_frag item ++
      "struct" :: struct_name :: (genericsFrag item.generics ++
      struct_fields_frag sys.fields)
    impl_command := impl_command_frag entity_command sys ecs_root
      item.generics struct_name command_trait fn_body item.ident
    commands_trait := commands_trait_frag entity_command sys margs.no_trait
      docs trait_name margs.name item.generics trait_fn_output ecs_root
      struct_name return_frag
    impl_world := impl_world_frag entity_command sys margs.no_trait
      margs.no_world trait_name margs.name item.generics trait_fn_output
      ecs_root struct_name command_trait return_frag item.ident }

/-- The `commandify` entry point of gen.rs lines 10-446, up to the artifact
record: reject a variadic input, resolve the options, classify the fields,
require a subject parameter in entity-scoped mode, and assemble. -/
def commandifyArtifacts (args : MacroArgsInput) (item : ItemFn)
    (entity_command : Bool) : Except GenError Artifacts :=
  if item.variadic then .error .variadic
  else
    let margs := macro_args args item.ident
    match fn_args item.inputs entity_command with
    | .error e => .error e
    | .ok sys =>
      if entity_command && sys.entity.isNone then .error .entityRequired
      else .ok (buildArtifacts margs item entity_command sys)

/-- Concatenation of the artifact set into the final token stream, in the
order of gen.rs lines 429-445. -/
def assemble (a : Artifacts) : List Tok :=
  a.original_fn ++ a.result_handling_fn.getD [] ++ a.struct_decl ++
    a.impl_command ++ a.commands_trait ++ a.impl_world

/-- The full `commandify` of gen.rs: either a validation error or the
emitted token stream. -/
def commandify (args : MacroArgsInput) (item : ItemFn)
    (entity_command : Bool) : Except GenError (List Tok) :=
  (commandifyArtifacts args item entity_command).map assemble

/-- Whether an `Except` value is a success. -/
def exceptIsOk : Except ε α → Bool
| .ok _ => true
| .error _ => false

/-- `leadsWith pat l` holds when `pat` is an initial run of `l`. -/
def leadsWith : List Tok → List Tok → Bool
| [], _ => true
| _ :: _, [] => false
| p :: ps, t :: ts => p == t && leadsWith ps ts

/-- `hasSub pat l` holds when `pat` occurs as a contiguous run inside `l`. -/
def hasSub (pat : List Tok) : List Tok → Bool
| [] => leadsWith pat []
| t :: rest => leadsWith pat (t :: rest) || hasSub pat rest

/-- An observable event of running the generated result-routing wrapper:
the single call into the renamed internal function, or a one-shot handler
invocation with its payload. -/
inductive HandlerEvent
| callInternal
| okRun (handler : String) (payload : String)
| errRun (handler : String) (payload : String)
deriving DecidableEq, BEq

/-- Shallow embedding of the runtime semantics of the wrapper body emitted
by gen.rs lines 183-194: the internal function is invoked once, its result
is bound, and the `Ok`/`Err` arms run the corresponding configured handler
on the payload (a no-op when that handler is absent).  The internal
function's runtime outcome is the `internal` argument; the returned list is
the ordered event trace of one wrapper invocation. -/
def runResultHandlingBody (internal : Except String String)
    (ok_handler error_handler : Option String) : List HandlerEvent :=
  HandlerEvent.callInternal ::
    match internal with
    | .ok v => (match ok_handler with | some h => [.okRun h v] | none => [])
    | .error e => (match error_handler with | some h => [.errRun h e] | none => [])

/-- Evaluate a boolean observation on the success value of an `Except`
(false on error). -/
def exceptTest (f : α → Bool) : Except ε α → Bool
| .ok a => f a
| .error _ => false

/-- A directive list with every option absent and no suppression flags. -/
def argsNone : MacroArgsInput :=
  { no_trait := false, no_world := false, name := none, struct_name := none,
    trait_name := none, ecs_root := none, ok_handler := none,
    error_handler := none }

/-- A minimal input function: `fn foo(world: &mut World) { }` — no
attributes, no qualifiers, no generics, no return type. -/
def itemBase : ItemFn :=
  { attrs := [], vis := [], constness := false, asyncness := false,
    unsafety := false, abi := none, ident := "foo", generics := [],
    inputs := [Param.worldArg ("world")], variadic := false,
    output := RetTy.unit, body := [] }

/-- Concrete input for C1: a success handler and a fallible return type. -/
def c1args : MacroArgsInput := { argsNone with ok_handler := some ("on_ok") }

/-- Concrete input for C1: exclusive function returning `Result<A, E>`. -/
def c1item : ItemFn := { itemBase with output := RetTy.result ("A") ("E") }

/-- The classified fields of `c1item` (exclusive mode, no captured fields). -/
def c1sys : SysArgs :=
  { entity := none, fields := [], def_field_names := [],
    impl_field_names := [], args := SystemArgs.Exclusive ("world") }

/-- The artifact set generated from `c1args`/`c1item`. -/
def c1arts : Artifacts :=
  buildArtifacts (macro_args c1args c1item.ident) c1item false c1sys

/-- Concrete witness input for C2: a system-mode function with two captured
fields. -/
def c2bitem : ItemFn :=
  { itemBase with inputs := [Param.plain ("a") ("u32"), Param.plain ("b") ("V")] }

/-- The classified fields of `c2bitem` (system mode, two fields). -/
def c2bsys : SysArgs :=
  { entity := none, fields := [("a", "u32"), ("b", "V")],
    def_field_names := ["a", "b"], impl_field_names := ["a", "b"],
    args := SystemArgs.System ["a", "b"] none }

/-- The artifact set generated from `argsNone`/`c2bitem`. -/
def c2barts : Artifacts :=
  buildArtifacts (macro_args argsNone c2bitem.ident) c2bitem false c2bsys

/-- Concrete input for C3: an explicit rootNamespace override. -/
def c3args : MacroArgsInput :=
  { argsNone with ecs_root := some (["::", "my_ecs"]) }

/-- Concrete input for C3: a system-mode function with one captured field. -/
def c3item : ItemFn := { itemBase with inputs := [Param.plain ("a") ("u32")] }

/-- Concrete input for C4: a success handler configured. -/
def c4args : MacroArgsInput := { argsNone with ok_handler := some ("on_ok") }

/-- Concrete input for C4: exclusive function returning `Result<A, E>`. -/
def c4item : ItemFn := { itemBase with output := RetTy.result ("A") ("E") }

/-- Concrete input for C5: a publicName override distinct from the raw
identifier. -/
def c5args : MacroArgsInput := { argsNone with name := some ("spawnThing") }

/-- Concrete input for C5: the raw identifier differs from the override. -/
def c5item : ItemFn := { itemBase with ident := "orig_fn" }

/-- Concrete input for C7: no subject-shaped parameter. -/
def c7item0 : ItemFn := { itemBase with inputs := [Param.plain ("a") ("u32")] }

/-- Concrete input for C7: exactly one subject-shaped parameter. -/
def c7item1 : ItemFn :=
  { itemBase with inputs := [Param.entityArg ("e"), Param.plain ("a") ("u32")] }

/-- Concrete input for C7: two subject-shaped parameters. -/
def c7item2 : ItemFn :=
  { itemBase with inputs := [Param.entityArg ("e"), Param.entityArg ("f")] }

/-- Concrete input for C8: a variadic trailing parameter. -/
def c8item : ItemFn := { itemBase with variadic := true }

/-- Concrete input for C10: an async input function. -/
def c10item : ItemFn := { itemBase with asyncness := true }

/-- The classified fields of `c10item` (exclusive mode, no captured
fields). -/
def c10sys : SysArgs :=
  { entity := none, fields := [], def_field_names := [],
    impl_field_names := [], args := SystemArgs.Exclusive ("world") }

/-- The artifact set generated from `argsNone`/`c10item`. -/
def c10arts : Artifacts :=
  buildArtifacts (macro_args argsNone c10item.ident) c10item false c10sys

theorem leadsWith_append (pat suf : List Tok) :
    leadsWith pat (pat ++ suf) = true := by
  induction pat with
  | nil => rfl
  | cons p ps ih => simp [leadsWith, ih]

theorem hasSub_nil (l : List Tok) : hasSub [] l = true := by
  cases l <;> simp [hasSub, leadsWith]

theorem hasSub_middle (pre pat suf : List Tok) :
    hasSub pat (pre ++ (pat ++ suf)) = true := by
  induction pre with
  | nil =>
    cases pat with
    | nil => simpa using hasSub_nil suf
    | cons p ps =>
      have hl : leadsWith (p :: ps) ((p :: ps) ++ suf) = true :=
        leadsWith_append (p :: ps) suf
      simp only [List.cons_append] at hl
      simp [hasSub, hl]
  | cons t ts ih => simp [hasSub, ih]

theorem commandifyArtifacts_ok {args : MacroArgsInput} {item : ItemFn}
    {ec : Bool} {arts : Artifacts}
    (h : commandifyArtifacts args item ec = .ok arts) :
    item.variadic = false ∧ ∃ sys, fn_args item.inputs ec = .ok sys ∧
      arts = buildArtifacts (macro_args args item.ident) item ec sys := by
  unfold commandifyArtifacts at h
  split at h
  · exact absurd h (by simp)
  · rename_i hv
    refine ⟨by simpa using hv, ?_⟩
    split at h
    · exact absurd h (by simp)
    · rename_i sys hfa
      split at h
      · exact absurd h (by simp)
      · injection h with h
        exact ⟨sys, hfa, h.symm⟩

/-- C9: generation is deterministic — the generator is a pure function of
its two inputs (and the mode flag), so two runs over identical input
produce identical token streams. -/
theorem c9_deterministic (args : MacroArgsInput) (item : ItemFn) (ec : Bool) :
    commandify args item ec = commandify args item ec := rfl

/-- C8: an input function with a variadic trailing parameter always yields
the "command cannot be variadic" validation error, independent of every
other input and configuration field. -/
theorem c8_variadic_rejected (args : MacroArgsInput) (item : ItemFn)
    (ec : Bool) (h : item.variadic = true) :
    commandify args item ec = .error .variadic ∧
      GenError.message .variadic = "command cannot be variadic" := by
  refine ⟨?_, rfl⟩
  simp [commandify, commandifyArtifacts, h, Except.map]

/-- C8 witness: the rejection at a concrete variadic input. -/
theorem c8_witness :
    c8item.variadic = true ∧
    commandify argsNone c8item false = .error .variadic :=
  ⟨rfl, (c8_variadic_rejected argsNone c8item false rfl).1⟩

/-- C6: under both handlers configured, one wrapper invocation calls the
renamed internal function exactly once and then invokes exactly one of the
two handlers — the success handler with the success payload on the `Ok`
arm, the error handler with the error payload on the `Err` arm. -/
theorem c6_result_routing (r : Except String String) (ho he : String) :
    (runResultHandlingBody r (some ho) (some he)).count
      HandlerEvent.callInternal = 1 ∧
    (∀ v, r = .ok v → runResultHandlingBody r (some ho) (some he) =
      [.callInternal, .okRun ho v]) ∧
    (∀ e, r = .error e → runResultHandlingBody r (some ho) (some he) =
      [.callInternal, .errRun he e]) := by
  refine ⟨?_, ?_, ?_⟩
  · cases r <;> rfl
  · rintro v rfl; rfl
  · rintro e rfl; rfl

/-- C6 witness: the routing at a concrete success outcome. -/
theorem c6_witness :
    (runResultHandlingBody (.ok ("v")) (some ("h1")) (some ("h2"))).count
      HandlerEvent.callInternal = 1 ∧
    runResultHandlingBody (.ok ("v")) (some ("h1")) (some ("h2")) =
      [.callInternal, .okRun ("h1") ("v")] :=
  ⟨(c6_result_routing (.ok ("v")) ("h1") ("h2")).1,
   (c6_result_routing (.ok ("v")) ("h1") ("h2")).2.1 ("v") rfl⟩

/-- C5: default generated names are derived from the resolved public name,
never from the raw function identifier — with publicName override
`spawnThing` the derived names are `SpawnThingCommand` /
`SpawnThingEntityCommand` / `CommandsSpawnThingExt` /
`EntityCommandsSpawnThingExt` for every raw identifier — and PascalCase
conversion is applied only to the public name, never to explicit
overrides. -/
theorem c5_name_derivation :
    (∀ ident : String,
      (macro_args c5args ident).name = "spawnThing" ∧
      resolve_struct_name none (macro_args c5args ident).name false =
        "SpawnThingCommand" ∧
      resolve_struct_name none (macro_args c5args ident).name true =
        "SpawnThingEntityCommand" ∧
      resolve_trait_name none (macro_args c5args ident).name false =
        "CommandsSpawnThingExt" ∧
      resolve_trait_name none (macro_args c5args ident).name true =
        "EntityCommandsSpawnThingExt") ∧
    (∀ (ov nm : String) (ec : Bool),
      resolve_struct_name (some ov) nm ec = ov ∧
      resolve_trait_name (some ov) nm ec = ov) ∧
    exceptTest (fun a => a.struct_decl ==
        ["struct", "SpawnThingCommand", ";"])
      (commandifyArtifacts c5args c5item false) = true := by
  refine ⟨fun ident => ⟨rfl, rfl, rfl, rfl, rfl⟩,
    fun ov nm ec => ⟨rfl, rfl⟩, by decide⟩

theorem hasSub_exclusive_destructure (g r gn ap fb : List Tok) (ct S : Tok)
    (names : List String) :
    hasSub ("let" :: S :: "\x7b" ::
        (spliceAll (fun n => [n, ","]) names ++ ["\x7d", "=", "self", ";"]))
      ("impl" :: (g ++ r ++ ["::", "system", "::", ct, "for", S] ++ gn ++
        ["\x7b", "fn", "apply"] ++ ap ++ ["\x7b", "let", S, "\x7b"] ++
        spliceAll (fun n => [n, ","]) names ++ ["\x7d", "=", "self", ";"] ++
        fb ++ ["\x7d", "\x7d"])) = true := by
  have h2 : ("impl" :: (g ++ r ++ ["::", "system", "::", ct, "for", S] ++ gn ++
        ["\x7b", "fn", "apply"] ++ ap ++ ["\x7b", "let", S, "\x7b"] ++
        spliceAll (fun n => [n, ","]) names ++ ["\x7d", "=", "self", ";"] ++
        fb ++ ["\x7d", "\x7d"])) =
      ("impl" :: (g ++ r ++ ["::", "system", "::", ct, "for", S] ++ gn ++
        ["\x7b", "fn", "apply"] ++ ap ++ ["\x7b"])) ++
      (("let" :: S :: "\x7b" ::
        (spliceAll (fun n => [n, ","]) names ++ ["\x7d", "=", "self", ";"])) ++
       (fb ++ ["\x7d", "\x7d"])) := by
    simp [List.append_assoc]
  rw [h2]
  exact hasSub_middle _ _ _

theorem hasSub_system_empty_body (g r gn ap : List Tok) (ct S idt : Tok) :
    hasSub ("\x7b" :: "use" :: (r ++
        ["::", "system", "::", "RunSystemOnce", ";",
         "world", ".", "run_system_once", "(", idt, ")", ";", "\x7d", "\x7d"]))
      ("impl" :: (g ++ r ++ ["::", "system", "::", ct, "for", S] ++ gn ++
        ["\x7b", "fn", "apply"] ++ ap ++
        ["\x7b", "use"] ++ r ++
        ["::", "system", "::", "RunSystemOnce", ";",
         "world", ".", "run_system_once", "(", idt, ")", ";", "\x7d", "\x7d"])) = true := by
  have h2 : ("impl" :: (g ++ r ++ ["::", "system", "::", ct, "for", S] ++ gn ++
        ["\x7b", "fn", "apply"] ++ ap ++
        ["\x7b", "use"] ++ r ++
        ["::", "system", "::", "RunSystemOnce", ";",
         "world", ".", "run_system_once", "(", idt, ")", ";", "\x7d", "\x7d"])) =
      ("impl" :: (g ++ r ++ ["::", "system", "::", ct, "for", S] ++ gn ++
        ["\x7b", "fn", "apply"] ++ ap)) ++
      (("\x7b" :: "use" :: (r ++
        ["::", "system", "::", "RunSystemOnce", ";",
         "world", ".", "run_system_once", "(", idt, ")", ";", "\x7d", "\x7d"])) ++
       []) := by
    simp [List.append_assoc]
  rw [h2]
  exact hasSub_middle _ _ _

theorem hasSub_system_destructure (g r gn ap sif : List Tok) (ct S idt : Tok)
    (names : List String) :
    hasSub ("let" :: S :: "\x7b" ::
        (spliceAll (fun n => [n, ","]) names ++ ["\x7d", "=", "self", ";"]))
      ("impl" :: (g ++ r ++ ["::", "system", "::", ct, "for", S] ++ gn ++
        ["\x7b", "fn", "apply"] ++ ap ++
        ["\x7b", "use"] ++ r ++
        ["::", "system", "::", "RunSystemOnce", ";", "let", S, "\x7b"] ++
        spliceAll (fun n => [n, ","]) names ++
        ["\x7d", "=", "self", ";", "world", ".", "run_system_once_with", "("] ++
        sif ++ [",", idt, ")", ";", "\x7d", "\x7d"])) = true := by
  have h2 : ("impl" :: (g ++ r ++ ["::", "system", "::", ct, "for", S] ++ gn ++
        ["\x7b", "fn", "apply"] ++ ap ++
        ["\x7b", "use"] ++ r ++
        ["::", "system", "::", "RunSystemOnce", ";", "let", S, "\x7b"] ++
        spliceAll (fun n => [n, ","]) names ++
        ["\x7d", "=", "self", ";", "world", ".", "run_system_once_with", "("] ++
        sif ++ [",", idt, ")", ";", "\x7d", "\x7d"])) =
      ("impl" :: (g ++ r ++ ["::", "system", "::", ct, "for", S] ++ gn ++
        ["\x7b", "fn", "apply"] ++ ap ++
        ["\x7b", "use"] ++ r ++
        ["::", "system", "::", "RunSystemOnce", ";"])) ++
      (("let" :: S :: "\x7b" ::
        (spliceAll (fun n => [n, ","]) names ++ ["\x7d", "=", "self", ";"])) ++
       ("world" :: "." :: "run_system_once_with" :: "(" ::
        (sif ++ [",", idt, ")", ";", "\x7d", "\x7d"]))) := by
    simp [List.append_assoc]
  rw [h2]
  exact hasSub_middle _ _ _

/-- C1 counterexample: at a concrete input with a success handler configured
and a declared `Result` return type, the synthesized wrapper bearing the
original identifier contains no `->` token at all, so its declared return
type is not the original declared return type (gen.rs lines 221-230 omit
the output annotation from the wrapper). -/
theorem c1_counterexample :
    c1args.ok_handler = some ("on_ok") ∧
    outputFrag c1item.output = ["->", "Result", "<", "A", ",", "E", ">"] ∧
    exceptTest (fun a => match a.result_handling_fn with
        | some w => !(w.contains ("->"))
        | none => false)
      (commandifyArtifacts c1args c1item false) = true := by
  refine ⟨rfl, rfl, ?_⟩
  decide

/-- C1 (amended): when at least one result handler is configured, the
original body is relocated into the renamed internal function
`<ident>_with_result` — which retains the original declared return type —
and a new function bearing the original identifier is synthesized whose
result-routing block immediately follows its signature: the wrapper
declares no return type. -/
theorem c1_amended_wrapper_shape (args : MacroArgsInput) (item : ItemFn)
    (ec : Bool) (arts : Artifacts) (sys : SysArgs)
    (hh : (args.error_handler.isSome || args.ok_handler.isSome) = true)
    (hok : commandifyArtifacts args item ec = .ok arts)
    (hfa : fn_args item.inputs ec = .ok sys) :
    arts.original_fn = fn_signature_head item ++
      (item.ident ++ "_with_result") ::
      (fn_signature_suffix item ++ outputFrag item.output ++
        ("\x7b" :: (item.body ++ ["\x7d"]))) ∧
    arts.result_handling_fn = some (fn_signature_head item ++ item.ident ::
      (fn_signature_suffix item ++ result_handling_fn_body
        ((macro_args args item.ident).ecs_root.getD ["::", "bevy", "::", "ecs"])
        (item.ident ++ "_with_result") sys.def_field_names
        args.ok_handler args.error_handler)) ∧
    (∀ root fi names oh eh,
      (result_handling_fn_body root fi names oh eh).head? = some ("\x7b")) := by
  obtain ⟨hv, sys2, hfa2, harts⟩ := commandifyArtifacts_ok hok
  rw [hfa] at hfa2
  injection hfa2 with hsys
  subst hsys
  subst harts
  refine ⟨?_, ?_, fun root fi names oh eh => rfl⟩
  · simp [buildArtifacts, macro_args, hh]
  · simp [buildArtifacts, macro_args, hh]

/-- C1 witness: the wrapper shape at a concrete input with a success
handler. -/
theorem c1_amended_witness :
    (c1args.error_handler.isSome || c1args.ok_handler.isSome) = true ∧
    commandifyArtifacts c1args c1item false = .ok c1arts ∧
    fn_args c1item.inputs false = .ok c1sys ∧
    c1arts.result_handling_fn = some (fn_signature_head c1item ++
      c1item.ident :: (fn_signature_suffix c1item ++ result_handling_fn_body
        ((macro_args c1args c1item.ident).ecs_root.getD
          ["::", "bevy", "::", "ecs"])
        (c1item.ident ++ "_with_result") c1sys.def_field_names
        c1args.ok_handler c1args.error_handler)) :=
  ⟨rfl, rfl, rfl,
   (c1_amended_wrapper_shape c1args c1item false c1arts c1sys rfl rfl rfl).2.1⟩

/-- C2 counterexample: at a concrete exclusive-mode input with zero captured
fields, the generated apply implementation still contains a destructuring
pattern for the data type (`let FooCommand { } = self ;`, gen.rs line 262),
so it is not the case that no use site contains a destructuring pattern. -/
theorem c2_counterexample :
    exceptTest (fun s => s.fields.isEmpty) (fn_args itemBase.inputs false) = true ∧
    exceptTest
      (fun a => hasSub ["let", "FooCommand", "\x7b", "\x7d", "=", "self"]
        a.impl_command)
      (commandifyArtifacts argsNone itemBase false) = true := by
  refine ⟨?_, ?_⟩ <;> decide

/-- C2 (amended): zero captured fields yield a unit-style data type with no
field list, and in system mode the zero-field apply body is just the
scheduled run with no destructuring — but in exclusive mode the apply body
always contains the destructuring pattern, with an empty field list when
there are zero fields; one or more captured fields are carried exactly in
declaration order and the destructuring use sites list all of them in that
same order. -/
theorem c2_amended_field_rendering (args : MacroArgsInput) (item : ItemFn)
    (ec : Bool) (arts : Artifacts) (sys : SysArgs)
    (hok : commandifyArtifacts args item ec = .ok arts)
    (hfa : fn_args item.inputs ec = .ok sys) :
    struct_fields_frag ([] : List (String × String)) = [";"] ∧
    (sys.fields.isEmpty = false → struct_fields_frag sys.fields =
      "\x7b" :: (spliceAll (fun f => ["pub", f.1, ":", f.2, ","]) sys.fields ++
        ["\x7d"])) ∧
    sys.def_field_names = sys.fields.map Prod.fst ∧
    sys.impl_field_names = sys.fields.map Prod.fst ∧
    (∀ w, sys.args = SystemArgs.Exclusive w →
      hasSub ("let" :: resolve_struct_name
          (macro_args args item.ident).struct_name
          (macro_args args item.ident).name ec :: "\x7b" ::
          (spliceAll (fun n => [n, ","]) sys.impl_field_names ++
            ["\x7d", "=", "self", ";"]))
        arts.impl_command = true) ∧
    (∀ si en, sys.args = SystemArgs.System si en → sys.fields.isEmpty = true →
      hasSub ("\x7b" :: "use" ::
          ((macro_args args item.ident).ecs_root.getD
            ["::", "bevy", "::", "ecs"] ++
          ["::", "system", "::", "RunSystemOnce", ";", "world", ".",
           "run_system_once", "(", item.ident, ")", ";", "\x7d", "\x7d"]))
        arts.impl_command = true) ∧
    (∀ si en, sys.args = SystemArgs.System si en → sys.fields.isEmpty = false →
      hasSub ("let" :: resolve_struct_name
          (macro_args args item.ident).struct_name
          (macro_args args item.ident).name ec :: "\x7b" ::
          (spliceAll (fun n => [n, ","]) sys.def_field_names ++
            ["\x7d", "=", "self", ";"]))
        arts.impl_command = true) := by
  obtain ⟨hv, sys2, hfa2, harts⟩ := commandifyArtifacts_ok hok
  rw [hfa] at hfa2
  injection hfa2 with hsys
  subst hsys
  subst harts
  have hnames : sys.def_field_names = sys.fields.map Prod.fst ∧
      sys.impl_field_names = sys.fields.map Prod.fst := by
    have hrec := hfa
    simp only [fn_args] at hrec
    split at hrec
    · exact absurd hrec (by simp)
    · injection hrec with hrec
      rw [← hrec]
      exact ⟨rfl, rfl⟩
  refine ⟨rfl, ?_, hnames.1, hnames.2, ?_, ?_, ?_⟩
  · intro hne
    simp [struct_fields_frag, hne]
  · intro w hw
    simp only [buildArtifacts, impl_command_frag, hw]
    exact hasSub_exclusive_destructure _ _ _ _ _ _ _ _
  · intro si en hw hfe
    simp only [buildArtifacts, impl_command_frag, hw, hfe, if_true]
    exact hasSub_system_empty_body _ _ _ _ _ _ _
  · intro si en hw hfe
    simp only [buildArtifacts, impl_command_frag, hw, hfe, Bool.false_eq_true,
      if_false]
    exact hasSub_system_destructure _ _ _ _ _ _ _ _ _

/-- C2 witness: the field rendering at a concrete system-mode input with two
captured fields. -/
theorem c2_amended_witness :
    commandifyArtifacts argsNone c2bitem false = .ok c2barts ∧
    fn_args c2bitem.inputs false = .ok c2bsys ∧
    c2bsys.args = SystemArgs.System ["a", "b"] none ∧
    c2bsys.fields.isEmpty = false ∧
    hasSub ("let" :: resolve_struct_name
        (macro_args argsNone c2bitem.ident).struct_name
        (macro_args argsNone c2bitem.ident).name false :: "\x7b" ::
        (spliceAll (fun n => [n, ","]) c2bsys.def_field_names ++
          ["\x7d", "=", "self", ";"]))
      c2barts.impl_command = true :=
  ⟨rfl, rfl, rfl, rfl,
   (c2_amended_field_rendering argsNone c2bitem false c2barts c2bsys rfl
     rfl).2.2.2.2.2.2 ["a", "b"] none rfl rfl⟩

/-- C3: evaluation at the failing input — with rootNamespace override
`::my_ecs`, a system-mode function with a captured field and the world
extension enabled, the emitted world-extension impl targets the override
root but its `use` statement still hard-codes the default `::bevy::ecs`
(gen.rs line 418), so not every root reference uses the override. -/
theorem c3_default_root_leak :
    c3args.ecs_root = some (["::", "my_ecs"]) ∧
    exceptTest
      (fun a => hasSub ["use", "::", "bevy", "::", "ecs"] a.impl_world)
      (commandifyArtifacts c3args c3item false) = true ∧
    exceptTest
      (fun a => hasSub ["::", "my_ecs", "::", "world", "::", "World"]
        a.impl_world)
      (commandifyArtifacts c3args c3item false) = true := by
  refine ⟨rfl, ?_, ?_⟩ <;> decide

/-- C4: evaluation at the failing input — with a success handler configured
and a fallible return type, the generated trait method has no declared
return type, yet its body still ends with the trailing returned value
`self`: gen.rs line 241 computes `return_frag` from `do_return` alone,
ignoring handler presence, while the claim (and gen.rs lines 206-211 for
the declared output) requires the call site to return nothing when a
handler is present. -/
theorem c4_trailing_self_leak :
    c4args.ok_handler = some ("on_ok") ∧
    return_type c4item.output = true ∧
    exceptTest
      (fun a => hasSub [")", ";", "self", "\x7d", "\x7d"] a.commands_trait)
      (commandifyArtifacts c4args c4item false) = true ∧
    exceptTest (fun a => !(a.commands_trait.contains ("->")))
      (commandifyArtifacts c4args c4item false) = true := by
  refine ⟨rfl, rfl, ?_, ?_⟩ <;> decide

/-- C7: in entity-scoped mode, zero subject-shaped parameters yield the
entity-required validation error, exactly one (all else valid) succeeds,
and more than one yields the ambiguous-subject validation error; in the
error cases generation fails entirely and produces no artifacts. -/
theorem c7_entity_arity (args : MacroArgsInput) (item : ItemFn)
    (hv : item.variadic = false) :
    ((entity_params item.inputs).length = 0 →
      commandify args item true = .error .entityRequired) ∧
    ((entity_params item.inputs).length = 1 →
      exceptIsOk (commandify args item true) = true) ∧
    (1 < (entity_params item.inputs).length →
      commandify args item true = .error .ambiguousEntity) := by
  refine ⟨?_, ?_, ?_⟩
  · intro h0
    have he : entity_params item.inputs = [] := List.length_eq_zero.mp h0
    simp [commandify, commandifyArtifacts, hv, fn_args, he, Except.map]
  · intro h1
    obtain ⟨e, he⟩ := List.length_eq_one.mp h1
    simp [commandify, commandifyArtifacts, hv, fn_args, he, Except.map,
      exceptIsOk]
  · intro h2
    simp [commandify, commandifyArtifacts, hv, fn_args, h2, Except.map]

/-- C7 witness: the three arities at concrete entity-scoped inputs. -/
theorem c7_witness :
    c7item0.variadic = false ∧
    (entity_params c7item0.inputs).length = 0 ∧
    commandify argsNone c7item0 true = .error .entityRequired ∧
    c7item1.variadic = false ∧
    (entity_params c7item1.inputs).length = 1 ∧
    exceptIsOk (commandify argsNone c7item1 true) = true ∧
    c7item2.variadic = false ∧
    1 < (entity_params c7item2.inputs).length ∧
    commandify argsNone c7item2 true = .error .ambiguousEntity :=
  ⟨rfl, rfl, (c7_entity_arity argsNone c7item0 rfl).1 rfl,
   rfl, rfl, (c7_entity_arity argsNone c7item1 rfl).2.1 rfl,
   rfl, by decide, (c7_entity_arity argsNone c7item2 rfl).2.2 (by decide)⟩

/-- C10: on every successfully generated input the qualifier tokens
(constness, asyncness, unsafety, ABI) are forwarded both onto the emitted
functions and onto the emitted data-type declaration itself: the struct
declaration is exactly the attributes, visibility and qualifier tokens
followed by `struct`, so an async input yields a struct declaration
prefixed with `async` (gen.rs lines 429-441). -/
theorem c10_qualifiers_on_struct (args : MacroArgsInput) (item : ItemFn)
    (ec : Bool) (arts : Artifacts) (sys : SysArgs)
    (hok : commandifyArtifacts args item ec = .ok arts)
    (hfa : fn_args item.inputs ec = .ok sys) :
    arts.struct_decl = item.attrs ++ item.vis ++ qual_frag item ++
      "struct" :: resolve_struct_name (macro_args args item.ident).struct_name
        (macro_args args item.ident).name ec ::
      (genericsFrag item.generics ++ struct_fields_frag sys.fields) ∧
    (item.asyncness = true → "async" ∈ arts.struct_decl) ∧
    List.IsPrefix (fn_signature_head item) arts.original_fn := by
  obtain ⟨hv, sys2, hfa2, harts⟩ := commandifyArtifacts_ok hok
  rw [hfa] at hfa2
  injection hfa2 with hsys
  subst hsys
  subst harts
  refine ⟨?_, ?_, ?_⟩
  · simp [buildArtifacts]
  · intro ha
    simp [buildArtifacts, qual_frag, ha]
  · simp only [buildArtifacts]
    exact ⟨_, rfl⟩

/-- C10 witness: the async qualifier on the struct declaration at a
concrete async input. -/
theorem c10_witness :
    commandifyArtifacts argsNone c10item false = .ok c10arts ∧
    fn_args c10item.inputs false = .ok c10sys ∧
    c10item.asyncness = true ∧
    "async" ∈ c10arts.struct_decl :=
  ⟨rfl, rfl, rfl,
   (c10_qualifiers_on_struct argsNone c10item false c10arts c10sys rfl
     rfl).2.1 rfl⟩
